import Mathlib

/-!
Verification of the arccane.ai scaffold application's typed RPC layer
(tRPC-style router with zod input validation and an Inngest event-dispatch
bridge), its background event-handler function, the Inngest HTTP route
module, and the Prisma database-client singleton module.

The router module `src/trpc/routers/_app.ts`, the Inngest client and
functions modules, and the route module `src/app/api/inngest/route.ts` are
not present in the source tree (only their test suites and callers are), so
those parts are modelled from the specification; the database module
`src/lib/db.ts` is embedded from its source.
-/

namespace Arccane

/-- Untyped JSON-like values, as supplied by an external caller before
validation (JS strings, numbers, objects, and the undefined value). -/
inductive Value where
  | str (s : String)
  | num (n : Int)
  | obj (fields : List (String × Value))
  | undef

/-- Error taxonomy of the RPC layer: schema-validation failures, unknown
procedure names, and event-dispatch (transport) failures. -/
inductive RpcError where
  | validationError (msg : String)
  | notFoundError (procName : String)
  | dispatchError (msg : String)
deriving DecidableEq, Repr

/-- Event sent to the external Inngest event system: a name and a data
payload of named fields. -/
structure InngestEvent where
  name : String
  data : List (String × Value)

/-- First-match field lookup in a JS-object field list. -/
def lookupField : List (String × Value) → String → Option Value
  | [], _ => none
  | (k, v) :: rest, key => if k = key then some v else lookupField rest key

/-- Modelled from the spec: the zod input schema `z.object({ text: z.string() })`
of the missing router module `src/trpc/routers/_app.ts`. Accepts an object
whose `text` field is a string, verbatim (no trimming, no coercion); every
non-string `text`, missing field, or non-object input fails. -/
def validateTextInput (raw : Value) : Except RpcError String :=
  match raw with
  | Value.obj fields =>
      match lookupField fields "text" with
      | some (Value.str s) => Except.ok s
      | some _ => Except.error (RpcError.validationError "text: expected string, received other type")
      | none => Except.error (RpcError.validationError "text: required")
  | _ => Except.error (RpcError.validationError "expected object")

/-- Outcome of one call to the external event system's send operation:
`none` is a successful acknowledgment, `some msg` a transport failure. -/
def SendFn : Type := InngestEvent → Option String

/-- Modelled from the spec: the `hello` query handler of the missing router
module — returns `{ greeting: "hello " + text }` by plain concatenation. -/
def helloHandler (text : String) : Value :=
  Value.obj [("greeting", Value.str ("hello " ++ text))]

/-- The event dispatched by the `invoke` mutation for a validated input
text: name `test/hello.world`, data `{ email: text }`. -/
def invokeEvent (text : String) : InngestEvent :=
  ⟨"test/hello.world", [("email", Value.str text)]⟩

/-- Modelled from the spec: the `invoke` mutation handler of the missing
router module — awaits one `inngest.send` of `invokeEvent text`; a send
failure propagates, a success returns void. The second component records
the dispatch calls actually made. -/
def invokeHandler (send : SendFn) (text : String) :
    Except RpcError Value × List InngestEvent :=
  match send (invokeEvent text) with
  | none => (Except.ok Value.undef, [invokeEvent text])
  | some msg => (Except.error (RpcError.dispatchError msg), [invokeEvent text])

/-- Procedure names registered in the app router. -/
inductive ProcName where
  | hello
  | invoke
deriving DecidableEq, Repr

/-- Procedure kinds of the registry. -/
inductive ProcKind where
  | query
  | mutation
deriving DecidableEq, Repr

/-- Modelled from the spec: the kind each registered procedure declares —
`hello` is a query, `invoke` a mutation. -/
def procKind : ProcName → ProcKind
  | ProcName.hello => ProcKind.query
  | ProcName.invoke => ProcKind.mutation

/-- Modelled from the spec: the router call pipeline of the missing router
module — validate the raw input, then on success run the resolved
procedure's handler; a validation failure is returned without running the
handler and without any dispatch. The second component records the dispatch
calls made to the external event system. -/
def callProc (send : SendFn) (p : ProcName) (raw : Value) :
    Except RpcError Value × List InngestEvent :=
  match validateTextInput raw with
  | Except.error e => (Except.error e, [])
  | Except.ok t =>
      match p with
      | ProcName.hello => (Except.ok (helloHandler t), [])
      | ProcName.invoke => invokeHandler send t

/-- Runs a sequence of procedure calls, collecting each call's result and
accumulating all dispatches made, in order. -/
def runCalls (send : SendFn) :
    List (ProcName × Value) → List (Except RpcError Value) × List InngestEvent
  | [] => ([], [])
  | (p, raw) :: rest =>
      let out := callProc send p raw
      let outs := runCalls send rest
      (out.1 :: outs.1, out.2 ++ outs.2)

/-- Resolves a wire-level procedure name to a registered procedure. -/
def resolveByName (n : String) : Option ProcName :=
  if n = "hello" then some ProcName.hello
  else if n = "invoke" then some ProcName.invoke
  else none

/-- Modelled from the spec: the wire-exposed HTTP calling surface — resolve
the procedure by name (unknown names fail with `notFoundError`), then run
the same validate-then-invoke-then-return pipeline. -/
def wireCall (send : SendFn) (n : String) (raw : Value) :
    Except RpcError Value × List InngestEvent :=
  match resolveByName n with
  | none => (Except.error (RpcError.notFoundError n), [])
  | some p => callProc send p raw

/-- Modelled from the spec: the in-process server caller's `hello` surface
(`caller.hello` as used by `src/app/page.tsx`). -/
def callerHello (send : SendFn) (raw : Value) :
    Except RpcError Value × List InngestEvent :=
  callProc send ProcName.hello raw

/-- Modelled from the spec: the in-process server caller's `invoke` surface. -/
def callerInvoke (send : SendFn) (raw : Value) :
    Except RpcError Value × List InngestEvent :=
  callProc send ProcName.invoke raw

/-- Outcome of one call to the Inngest step API's sleep operation: `none`
is success, `some err` a failure of the step. -/
def SleepFn : Type := String → String → Option String

/-- JavaScript template-literal interpolation of the possibly-absent field
value used by the background handler: a missing or undefined field renders
as the text undefined, a string renders verbatim. -/
def interpolateField : Option Value → String
  | none => "undefined"
  | some Value.undef => "undefined"
  | some (Value.str s) => s
  | some (Value.num n) => toString n
  | some (Value.obj _) => "[object Object]"

/-- Id under which the background function is registered. -/
def helloWorldId : String := "hello-world"

/-- Event name that triggers the background function. -/
def helloWorldTrigger : String := "test/hello.world"

/-- Modelled from the spec: the body of the missing Inngest function module's
`helloWorld` handler — awaits `step.sleep "wait-a-moment" "1s"`, then
returns `{ message: "Hello " + event.data.email + "!" }`; a sleep failure
propagates. The second component records the sleep calls made, as
(step-id, duration) pairs. -/
def helloWorldRun (sleep : SleepFn) (eventData : List (String × Value)) :
    Except String Value × List (String × String) :=
  match sleep "wait-a-moment" "1s" with
  | some err => (Except.error err, [("wait-a-moment", "1s")])
  | none =>
      let email := interpolateField (lookupField eventData "email")
      (Except.ok (Value.obj [("message", Value.str ("Hello " ++ email ++ "!"))]),
       [("wait-a-moment", "1s")])

/-- Handlers record returned by the event system's serve adapter: one
handler per exported HTTP method. -/
structure Handlers (α : Type) where
  GET : α
  POST : α
  PUT : α

/-- Arguments of a serve call: the shared client and the list of registered
functions. -/
structure ServeArgs (κ φ : Type) where
  client : κ
  functions : List φ

/-- Modelled from the spec: the missing route module
`src/app/api/inngest/route.ts` — it makes a single `serve` call with the
shared Inngest client and the function list `[helloWorld]`, and its three
exports GET, POST and PUT are exactly the fields of that call's result.
The serve adapter, the client and the function value are external inputs
of the module, taken as parameters. -/
def routeModule {κ φ α : Type} (serve : ServeArgs κ φ → Handlers α)
    (inngestClient : κ) (helloWorldFn : φ) : Handlers α :=
  serve ⟨inngestClient, [helloWorldFn]⟩

/-- Names the route module exports, in source order. -/
def routeExportNames : List String := ["GET", "POST", "PUT"]

/-- Embeds `src/lib/db.ts`. The file binds `export const prisma` twice —
first from `globalForPrisma.prisma || new PrismaClient()`, then from
`global.prisma || new PrismaClient()`, both reading the same global cache —
and is modelled as sequential evaluation, the later binding determining
the exported value; finally, when `NODE_ENV` is not production, it stores
the exported client into the global cache. Client identities are numbers;
`cache` is the global `prisma` slot on entry, `fresh1` and `fresh2` the
identities a `new PrismaClient()` at each of the two sites would create.
Returns the exported client and the global slot after evaluation. -/
def dbModule (cache : Option Nat) (fresh1 fresh2 : Nat) (env : String) :
    Nat × Option Nat :=
  let prismaFirstBinding := cache.getD fresh1
  let prisma := cache.getD fresh2
  let _ := prismaFirstBinding
  (prisma, if env ≠ "production" then some prisma else cache)

/-- C1: for every string s (including the empty and whitespace-only
strings), calling the hello query with input { text: s } succeeds and
returns exactly { greeting: "hello " ++ s }, with no trimming and no case
adjustment, and performs no dispatch. -/
theorem hello_returns_exact_greeting (send : SendFn) (s : String) :
    callProc send ProcName.hello (Value.obj [("text", Value.str s)]) =
      (Except.ok (Value.obj [("greeting", Value.str ("hello " ++ s))]), []) := by
  simp [callProc, validateTextInput, lookupField, helloHandler]

/-- C2: for every string s, calling the invoke mutation with input
{ text: s } performs exactly one dispatch call, with event name
test/hello.world and payload data { email: s }, whether or not the send
succeeds — no buffering, batching, deduplication, or internal retry. -/
theorem invoke_dispatches_exactly_once (send : SendFn) (s : String) :
    (callProc send ProcName.invoke (Value.obj [("text", Value.str s)])).2 =
      [⟨"test/hello.world", [("email", Value.str s)]⟩] := by
  have e1 : callProc send ProcName.invoke (Value.obj [("text", Value.str s)]) =
      invokeHandler send s := rfl
  rw [e1]
  unfold invokeHandler
  cases send (invokeEvent s) <;> rfl

/-- C3: for every string input on which the event dispatch fails, the
invoke mutation fails with that dispatch failure — the error propagates to
the caller and no success value is reported. -/
theorem invoke_fails_when_dispatch_fails (send : SendFn) (s msg : String)
    (h : send ⟨"test/hello.world", [("email", Value.str s)]⟩ = some msg) :
    callProc send ProcName.invoke (Value.obj [("text", Value.str s)]) =
      (Except.error (RpcError.dispatchError msg),
       [⟨"test/hello.world", [("email", Value.str s)]⟩]) := by
  have e1 : callProc send ProcName.invoke (Value.obj [("text", Value.str s)]) =
      invokeHandler send s := rfl
  have h' : send (invokeEvent s) = some msg := h
  rw [e1]
  unfold invokeHandler
  rw [h']
  rfl

/-- Witness for C3 at send constantly failing with network failure and
input a@b.com. -/
theorem invoke_fails_when_dispatch_fails_witness :
    (fun _ : InngestEvent => some "network failure")
        ⟨"test/hello.world", [("email", Value.str "a@b.com")]⟩ = some "network failure" ∧
    callProc (fun _ => some "network failure") ProcName.invoke
        (Value.obj [("text", Value.str "a@b.com")]) =
      (Except.error (RpcError.dispatchError "network failure"),
       [⟨"test/hello.world", [("email", Value.str "a@b.com")]⟩]) :=
  ⟨rfl, invoke_fails_when_dispatch_fails (fun _ => some "network failure")
    "a@b.com" "network failure" rfl⟩

/-- C4: for every non-string value v, calling hello or invoke with input
{ text: v } fails with a validation error (no type coercion), and no
dispatch call is performed. -/
theorem nonstring_text_rejected (send : SendFn) (v : Value)
    (h : ∀ s : String, v ≠ Value.str s) :
    callProc send ProcName.hello (Value.obj [("text", v)]) =
      (Except.error (RpcError.validationError "text: expected string, received other type"),
       []) ∧
    callProc send ProcName.invoke (Value.obj [("text", v)]) =
      (Except.error (RpcError.validationError "text: expected string, received other type"),
       []) := by
  cases v with
  | str s => exact absurd rfl (h s)
  | num n => exact ⟨rfl, rfl⟩
  | obj f => exact ⟨rfl, rfl⟩
  | undef => exact ⟨rfl, rfl⟩

/-- Witness for C4 at the non-string value 123. -/
theorem nonstring_text_rejected_witness :
    (∀ s : String, Value.num 123 ≠ Value.str s) ∧
    (callProc (fun _ => none) ProcName.hello (Value.obj [("text", Value.num 123)]) =
        (Except.error (RpcError.validationError "text: expected string, received other type"),
         []) ∧
     callProc (fun _ => none) ProcName.invoke (Value.obj [("text", Value.num 123)]) =
        (Except.error (RpcError.validationError "text: expected string, received other type"),
         [])) :=
  ⟨fun _ h => Value.noConfusion h,
   nonstring_text_rejected (fun _ => none) (Value.num 123) (fun _ h => Value.noConfusion h)⟩

/-- C5: for every procedure and raw input, validation runs before the
handler: if validation fails, the call returns exactly that validation
error, the handler never runs, and no dispatch is performed. -/
theorem validation_precedes_handler (send : SendFn) (p : ProcName) (raw : Value)
    (e : RpcError) (h : validateTextInput raw = Except.error e) :
    callProc send p raw = (Except.error e, []) := by
  simp [callProc, h]

/-- Witness for C5 at the invoke procedure and the non-object input 5. -/
theorem validation_precedes_handler_witness :
    validateTextInput (Value.num 5) =
        Except.error (RpcError.validationError "expected object") ∧
    callProc (fun _ => none) ProcName.invoke (Value.num 5) =
      (Except.error (RpcError.validationError "expected object"), []) :=
  ⟨rfl, validation_precedes_handler (fun _ => none) ProcName.invoke (Value.num 5)
    (RpcError.validationError "expected object") rfl⟩

/-- C6: the hello query is pure and deterministic — calling it twice with
the identical input { text: s } yields the identical output both times,
with no state change (no dispatches) between or across the calls. -/
theorem hello_pure_idempotent (send : SendFn) (s : String) :
    runCalls send [(ProcName.hello, Value.obj [("text", Value.str s)]),
                   (ProcName.hello, Value.obj [("text", Value.str s)])] =
      ([Except.ok (Value.obj [("greeting", Value.str ("hello " ++ s))]),
        Except.ok (Value.obj [("greeting", Value.str ("hello " ++ s))])], []) := by
  simp [runCalls, callProc, validateTextInput, lookupField, helloHandler]

/-- C7: for every procedure and raw input, the in-process server caller
and the wire-exposed HTTP call execute the identical
validate-then-invoke-then-return pipeline and produce the same result or
the same failure, including the same dispatches. -/
theorem wire_and_caller_agree (send : SendFn) (raw : Value) :
    wireCall send "hello" raw = callerHello send raw ∧
    wireCall send "invoke" raw = callerInvoke send raw := by
  exact ⟨rfl, rfl⟩

/-- C8: the background handler registered under id hello-world for event
test/hello.world performs exactly one sleep step with arguments
(wait-a-moment, 1s) and returns { message: "Hello " ++ e ++ "!" } when the
event data contains email e; when email is absent it returns
{ message: "Hello undefined!" }; and when the sleep step fails its error
propagates unchanged. -/
theorem helloWorld_handler_behavior (sleepOk sleepFail : SleepFn) (e err : String)
    (d : List (String × Value))
    (hok : sleepOk "wait-a-moment" "1s" = none)
    (hfail : sleepFail "wait-a-moment" "1s" = some err) :
    helloWorldId = "hello-world" ∧
    helloWorldTrigger = "test/hello.world" ∧
    helloWorldRun sleepOk [("email", Value.str e)] =
      (Except.ok (Value.obj [("message", Value.str ("Hello " ++ e ++ "!"))]),
       [("wait-a-moment", "1s")]) ∧
    helloWorldRun sleepOk [] =
      (Except.ok (Value.obj [("message", Value.str "Hello undefined!")]),
       [("wait-a-moment", "1s")]) ∧
    helloWorldRun sleepFail d = (Except.error err, [("wait-a-moment", "1s")]) := by
  refine ⟨rfl, rfl, ?_, ?_, ?_⟩
  · unfold helloWorldRun
    rw [hok]
    rfl
  · unfold helloWorldRun
    rw [hok]
    rfl
  · unfold helloWorldRun
    rw [hfail]

/-- Witness for C8 at a sleep that succeeds, a sleep that fails with
sleep failed, email user@example.com, and failure-path event data
containing boom@example.com. -/
theorem helloWorld_handler_behavior_witness :
    ((fun _ _ => none : SleepFn) "wait-a-moment" "1s" = none) ∧
    ((fun _ _ => some "sleep failed" : SleepFn) "wait-a-moment" "1s" = some "sleep failed") ∧
    (helloWorldId = "hello-world" ∧
     helloWorldTrigger = "test/hello.world" ∧
     helloWorldRun (fun _ _ => none) [("email", Value.str "user@example.com")] =
       (Except.ok (Value.obj [("message", Value.str "Hello user@example.com!")]),
        [("wait-a-moment", "1s")]) ∧
     helloWorldRun (fun _ _ => none) [] =
       (Except.ok (Value.obj [("message", Value.str "Hello undefined!")]),
        [("wait-a-moment", "1s")]) ∧
     helloWorldRun (fun _ _ => some "sleep failed")
         [("email", Value.str "boom@example.com")] =
       (Except.error "sleep failed", [("wait-a-moment", "1s")])) :=
  ⟨rfl, rfl,
   helloWorld_handler_behavior (fun _ _ => none) (fun _ _ => some "sleep failed")
     "user@example.com" "sleep failed" [("email", Value.str "boom@example.com")] rfl rfl⟩

/-- C9: the event system's HTTP route module obtains its handlers from a
single serve call whose arguments are the shared Inngest client and the
function list [helloWorld] exactly, and its exports are exactly GET, POST
and PUT — the fields of that one call's result. -/
theorem route_single_serve_exports {κ φ α : Type}
    (serve : ServeArgs κ φ → Handlers α) (inngestClient : κ) (helloWorldFn : φ) :
    routeModule serve inngestClient helloWorldFn =
      serve ⟨inngestClient, [helloWorldFn]⟩ ∧
    (routeModule serve inngestClient helloWorldFn).GET =
      (serve ⟨inngestClient, [helloWorldFn]⟩).GET ∧
    (routeModule serve inngestClient helloWorldFn).POST =
      (serve ⟨inngestClient, [helloWorldFn]⟩).POST ∧
    (routeModule serve inngestClient helloWorldFn).PUT =
      (serve ⟨inngestClient, [helloWorldFn]⟩).PUT ∧
    routeExportNames = ["GET", "POST", "PUT"] := by
  exact ⟨rfl, rfl, rfl, rfl, rfl⟩

/-- C10: the exported database client is a process-wide singleton — the
module returns the globally cached client when one exists, leaves the
global cache untouched under NODE_ENV production, stores the returned
client into the global cache when NODE_ENV is not production, and repeated
module evaluations in non-production environments reuse the same client
instance. -/
theorem db_client_singleton (c fresh1 fresh2 g1 g2 : Nat) (cache : Option Nat)
    (env : String) (h : env ≠ "production") :
    (dbModule (some c) fresh1 fresh2 env).1 = c ∧
    (dbModule cache fresh1 fresh2 "production").2 = cache ∧
    (dbModule cache fresh1 fresh2 env).2 =
      some (dbModule cache fresh1 fresh2 env).1 ∧
    (dbModule (dbModule none fresh1 fresh2 env).2 g1 g2 env).1 =
      (dbModule none fresh1 fresh2 env).1 := by
  refine ⟨rfl, by simp [dbModule], by simp [dbModule, h], by simp [dbModule, h]⟩

/-- Witness for C10 at NODE_ENV development with concrete client
identities. -/
theorem db_client_singleton_witness :
    (("development" : String) ≠ "production") ∧
    ((dbModule (some 0) 1 2 "development").1 = 0 ∧
     (dbModule none 1 2 "production").2 = none ∧
     (dbModule none 1 2 "development").2 =
       some (dbModule none 1 2 "development").1 ∧
     (dbModule (dbModule none 1 2 "development").2 3 4 "development").1 =
       (dbModule none 1 2 "development").1) :=
  ⟨by decide, db_client_singleton 0 1 2 3 4 none "development" (by decide)⟩

end Arccane
